import Mathlib

/-
Verification of the typedkafka repository against its specification.

The repository ships a package initializer (`src/typedkafka/__init__.py`)
re-exporting names from submodules; the specification additionally describes
a minimal message-broker client core (producer with buffered delivery and
delivery reports, consumer with a state machine and offset commits, admin
with topic lifecycle).  The submodules themselves are not part of the
source tree, so the broker-client core below is modelled from the
specification's own description, while the package-interface facts are
embedded directly from `__init__.py`.
-/

namespace TypedKafka

/-- The names imported at the top of `src/typedkafka/__init__.py`, in source
order: `testing`, then the names from `typedkafka.admin`,
`typedkafka.config`, `typedkafka.consumer`, `typedkafka.exceptions`, and
`typedkafka.producer`. -/
def importedNames : List String :=
  ["testing",
   "AdminError", "KafkaAdmin", "TopicConfig",
   "ConsumerConfig", "ProducerConfig",
   "KafkaConsumer",
   "ConsumerError", "KafkaError", "ProducerError", "SerializationError",
   "KafkaProducer"]

/-- The `__all__` list of `src/typedkafka/__init__.py` (lines 22-35), in
source order. -/
def allNames : List String :=
  ["KafkaProducer",
   "KafkaConsumer",
   "KafkaAdmin",
   "ProducerConfig",
   "ConsumerConfig",
   "TopicConfig",
   "KafkaError",
   "ProducerError",
   "ConsumerError",
   "SerializationError",
   "AdminError",
   "testing"]

/-- The `__version__` string of `src/typedkafka/__init__.py` (line 21). -/
def version : String := "0.2.0"

/-- Modelled from the spec: the sub-kind carried by `AdminError`
(§7 "cluster-management failure, carrying a sub-kind"; §4.3 names the
`AlreadyExists` sub-kind).  The admin module itself is not in the source
tree. -/
inductive AdminErrorKind
  | AlreadyExists
  | UnknownTopic
  | OtherFailure
deriving DecidableEq

/-- Modelled from the spec: the error taxonomy of §7 — `ConfigError`,
`SerializationError`, `BufferFullError`, `StateError`, `CommitError`,
`AdminError` (with a sub-kind).  The exceptions module is not in the
source tree. -/
inductive KafkaException
  | ConfigError
  | SerializationError
  | BufferFullError
  | StateError
  | CommitError
  | AdminError (kind : AdminErrorKind)
deriving DecidableEq

/-- Modelled from the spec: a Message per §3 — key (bytes, optional),
value (bytes), topic, partition (optional), timestamp, headers (ordered
mapping string→bytes).  Bytes are modelled as lists of naturals. -/
structure Message where
  key : Option (List Nat)
  value : List Nat
  topic : String
  partition : Option Nat
  timestamp : Nat
  headers : List (String × List Nat)
deriving DecidableEq

/-- Modelled from the spec: a DeliveryReport per §3 — topic, partition,
offset, error (optional); produced exactly once per produced message. -/
structure DeliveryReport where
  topic : String
  partition : Nat
  offset : Nat
  error : Option String
deriving DecidableEq

/-- Modelled from the spec: the producer session state of §4.1 — an
internal bounded buffer of not-yet-delivered messages, the loopback
broker log of acknowledged messages, the delivery reports dispatched so
far, and the count of successful `send` calls this session. -/
structure ProducerState where
  buffer : List Message
  log : List Message
  reports : List DeliveryReport
  sent : Nat
deriving DecidableEq

/-- Modelled from the spec: the initial producer session state (empty
buffer, empty broker log, no reports, no sends). -/
def initProducer : ProducerState :=
  { buffer := [], log := [], reports := [], sent := 0 }

/-- Modelled from the spec: the delivery report for message `m`
acknowledged (or rejected) at broker offset `off`, with optional error. -/
def mkReport (m : Message) (off : Nat) (err : Option String) : DeliveryReport :=
  { topic := m.topic, partition := m.partition.getD 0, offset := off, error := err }

/-- Modelled from the spec: `send(message)` of §4.1 — never blocks, enqueues
into the bounded internal buffer and returns; fails with `BufferFullError`
when the queue is full. -/
def send (maxBuf : Nat) (s : ProducerState) (m : Message) :
    Except KafkaException ProducerState :=
  if maxBuf ≤ s.buffer.length then Except.error KafkaException.BufferFullError
  else Except.ok { s with buffer := s.buffer ++ [m], sent := s.sent + 1 }

/-- Modelled from the spec: one step of the background delivery task of
§4.1.  `outcome m = none` means the broker acknowledges `m`; `outcome m =
some e` means broker-side rejection with reason `e`.  In both cases the
message leaves the buffer and exactly one delivery report is dispatched;
broker-side rejection is reported via `DeliveryReport.error` and never
raised, so the step always returns `Except.ok`. -/
def deliverOne (outcome : Message → Option String) (s : ProducerState) :
    Except KafkaException ProducerState :=
  match s.buffer with
  | [] => Except.ok s
  | m :: rest =>
    match outcome m with
    | none =>
      Except.ok { s with buffer := rest, log := s.log ++ [m],
                         reports := s.reports ++ [mkReport m s.log.length none] }
    | some e =>
      Except.ok { s with buffer := rest,
                         reports := s.reports ++ [mkReport m s.log.length (some e)] }

/-- Modelled from the spec: run one background delivery step, keeping the
state unchanged if the step reported an exception. -/
def deliverRun (outcome : Message → Option String) (s : ProducerState) : ProducerState :=
  match deliverOne outcome s with
  | Except.ok s' => s'
  | Except.error _ => s

/-- Modelled from the spec: drive the background delivery task for `n`
steps. -/
def flushAux (outcome : Message → Option String) : Nat → ProducerState → ProducerState
  | 0, s => s
  | Nat.succ n, s => flushAux outcome n (deliverRun outcome s)

/-- Modelled from the spec: `flush` of §4.1 — blocks until the background
task has drained the buffer and returns the count of undelivered messages
remaining, together with the resulting session state. -/
def flush (outcome : Message → Option String) (s : ProducerState) :
    Nat × ProducerState :=
  ((flushAux outcome s.buffer.length s).buffer.length,
   flushAux outcome s.buffer.length s)

/-- Modelled from the spec: a broker that acknowledges every message
(the loopback broker of the §8 round-trip harness). -/
def acceptAll : Message → Option String := fun _ => none

/-- Modelled from the spec: the commands a caller can issue to a producer
session (`send`, a background delivery step, `flush`). -/
inductive ProducerOp
  | sendMsg (m : Message)
  | deliverStep
  | flushStep

/-- Modelled from the spec: apply one producer command to the session
state; a command that fails leaves the state unchanged. -/
def runPOp (maxBuf : Nat) (outcome : Message → Option String)
    (s : ProducerState) : ProducerOp → ProducerState
  | ProducerOp.sendMsg m =>
    match send maxBuf s m with
    | Except.ok s' => s'
    | Except.error _ => s
  | ProducerOp.deliverStep => deliverRun outcome s
  | ProducerOp.flushStep => (flush outcome s).snd

/-- Modelled from the spec: apply a sequence of producer commands. -/
def runPOps (maxBuf : Nat) (outcome : Message → Option String)
    (s : ProducerState) (ops : List ProducerOp) : ProducerState :=
  ops.foldl (runPOp maxBuf outcome) s

/-- Modelled from the spec: the producer session states reachable from the
initial state by successful or failed sends, background delivery steps,
and flushes. -/
inductive Reachable (maxBuf : Nat) (outcome : Message → Option String) :
    ProducerState → Prop
  | init : Reachable maxBuf outcome initProducer
  | sendOk {s s' : ProducerState} {m : Message} :
      Reachable maxBuf outcome s → send maxBuf s m = Except.ok s' →
      Reachable maxBuf outcome s'
  | deliver {s : ProducerState} :
      Reachable maxBuf outcome s → Reachable maxBuf outcome (deliverRun outcome s)
  | flushed {s : ProducerState} :
      Reachable maxBuf outcome s → Reachable maxBuf outcome (flush outcome s).snd

/-- Modelled from the spec: the consumer state machine of §4.2 —
`Unsubscribed → Subscribed → Polling → (Rebalancing) → Polling → Closed`. -/
inductive CState
  | Unsubscribed
  | Subscribed
  | Polling
  | Rebalancing
  | Closed
deriving DecidableEq

/-- Modelled from the spec: a topic partition, the unit of assignment and
offset ownership (§3, §4.2). -/
structure TopicPartition where
  topic : String
  partition : Nat
deriving DecidableEq

/-- Modelled from the spec: a per-partition committed offset entry (§3
"Offsets"). -/
structure OffsetEntry where
  tp : TopicPartition
  offset : Nat
deriving DecidableEq

/-- Modelled from the spec: a ConsumerRecord per §3 — it extends Message
with partition, offset and consumer-group context. -/
structure ConsumerRecord where
  key : Option (List Nat)
  value : List Nat
  topic : String
  partition : Nat
  offset : Nat
  timestamp : Nat
  headers : List (String × List Nat)
  group : String
deriving DecidableEq

/-- Modelled from the spec: the consumer session state of §4.2 — the
state-machine state, the subscribed topics, the current partition
assignment (owned by the coordinator, cached locally), the locally cached
committed offsets, and the consumer-group id. -/
structure ConsumerState where
  state : CState
  subscription : List String
  assignment : List TopicPartition
  committed : List OffsetEntry
  group : String
deriving DecidableEq

/-- Modelled from the spec: `close()` on the consumer (§5) — abandons any
in-flight poll, releases partition ownership and moves the state machine to
`Closed`. -/
def close (c : ConsumerState) : ConsumerState :=
  { c with state := CState.Closed, assignment := [] }

/-- Modelled from the spec: `subscribe(topics)` of §4.2 — transitions to
`Subscribed` and records the topic interest; invalid on a closed consumer
(`StateError`). -/
def subscribe (c : ConsumerState) (topics : List String) :
    Except KafkaException ConsumerState :=
  if c.state = CState.Closed then Except.error KafkaException.StateError
  else Except.ok { c with state := CState.Subscribed, subscription := topics }

/-- Modelled from the spec: a coordinator-triggered rebalance (§4.2) — the
partition assignment changes externally; a closed consumer has released
ownership and is unaffected. -/
def rebalance (c : ConsumerState) (tps : List TopicPartition) : ConsumerState :=
  if c.state = CState.Closed then c
  else { c with state := CState.Rebalancing, assignment := tps }

/-- Modelled from the spec: convert the broker-log message `m` at offset
`off` into the ConsumerRecord handed to the consumer of group `g`. -/
def toRecord (g : String) (off : Nat) (m : Message) : ConsumerRecord :=
  { key := m.key, value := m.value, topic := m.topic,
    partition := m.partition.getD 0, offset := off,
    timestamp := m.timestamp, headers := m.headers, group := g }

/-- Modelled from the spec: the records a poll returns from the loopback
broker log, starting at offset `off` — the log entries whose topic is
subscribed, each converted to a ConsumerRecord at its log offset. -/
def recordsFrom (g : String) (subs : List String) :
    Nat → List Message → List ConsumerRecord
  | _, [] => []
  | off, m :: rest =>
    if m.topic ∈ subs then
      toRecord g off m :: recordsFrom g subs (off + 1) rest
    else
      recordsFrom g subs (off + 1) rest

/-- Modelled from the spec: `poll(timeout)` of §4.2 against the loopback
broker log — fails with `StateError` after `close()` (and before any
subscription, when the state machine has not left `Unsubscribed`);
otherwise returns the subscribed records and moves to `Polling`. -/
def poll (c : ConsumerState) (log : List Message) :
    Except KafkaException (List ConsumerRecord × ConsumerState) :=
  match c.state with
  | CState.Closed => Except.error KafkaException.StateError
  | CState.Unsubscribed => Except.error KafkaException.StateError
  | _ =>
    Except.ok (recordsFrom c.group c.subscription 0 log,
               { c with state := CState.Polling })

/-- Modelled from the spec: `commit(offsets)` of §4.2 — persists progress
for the given offsets; committing an offset for a partition not owned by
the current assignment fails with `CommitError`. -/
def commit (c : ConsumerState) (offs : List OffsetEntry) :
    Except KafkaException ConsumerState :=
  if _h : ∀ o ∈ offs, o.tp ∈ c.assignment then
    Except.ok { c with committed := offs ++ c.committed }
  else Except.error KafkaException.CommitError

/-- Modelled from the spec: the commands a caller (or the coordinator) can
apply to a consumer session. -/
inductive ConsumerOp
  | subscribeTo (topics : List String)
  | pollFrom (log : List Message)
  | commitOffsets (offs : List OffsetEntry)
  | rebalanceTo (tps : List TopicPartition)
  | closeNow

/-- Modelled from the spec: apply one consumer command; a command that
fails leaves the session unchanged. -/
def runCOp (c : ConsumerState) : ConsumerOp → ConsumerState
  | ConsumerOp.subscribeTo ts =>
    match subscribe c ts with
    | Except.ok c' => c'
    | Except.error _ => c
  | ConsumerOp.pollFrom log =>
    match poll c log with
    | Except.ok r => r.snd
    | Except.error _ => c
  | ConsumerOp.commitOffsets offs =>
    match commit c offs with
    | Except.ok c' => c'
    | Except.error _ => c
  | ConsumerOp.rebalanceTo tps => rebalance c tps
  | ConsumerOp.closeNow => close c

/-- Modelled from the spec: apply a sequence of consumer commands. -/
def runCOps (c : ConsumerState) (ops : List ConsumerOp) : ConsumerState :=
  ops.foldl runCOp c

/-- Modelled from the spec: a TopicConfig per §3 — name, partition count,
replication factor, config overrides; used only at topic-creation time. -/
structure TopicConfig where
  name : String
  numPartitions : Nat
  replicationFactor : Nat
  overrides : List (String × String)
deriving DecidableEq

/-- Modelled from the spec: `create_topic(TopicConfig)` of §4.3 — a
synchronous round-trip against the cluster's topic set; creating an
existing topic fails with `AdminError(kind=AlreadyExists)`, otherwise the
topic is added. -/
def create_topic (cluster : List String) (cfg : TopicConfig) :
    Except KafkaException (List String) :=
  if cfg.name ∈ cluster then
    Except.error (KafkaException.AdminError AdminErrorKind.AlreadyExists)
  else Except.ok (cluster ++ [cfg.name])

/-- A concrete message used by the witness instances. -/
def exMessage : Message :=
  { key := some [48], value := [104, 105], topic := "orders",
    partition := some 0, timestamp := 7, headers := [("h", [1, 2])] }

/-- A second concrete message used by the witness instances. -/
def exMessage2 : Message :=
  { key := none, value := [3], topic := "payments",
    partition := none, timestamp := 8, headers := [] }

/-- A broker outcome that rejects every message, used by the witness
instances. -/
def rejectAll : Message → Option String := fun _ => some "rejected"

/-- A concrete producer session holding one buffered and one acknowledged
message, used by the witness instances. -/
def exProducer : ProducerState :=
  { buffer := [exMessage2], log := [exMessage], reports := [], sent := 2 }

/-- The producer session reached from the initial state by one successful
send of `exMessage`, used by the witness instances. -/
def exSent : ProducerState :=
  { buffer := [exMessage], log := [], reports := [], sent := 1 }

/-- A concrete subscribed consumer session, used by the witness
instances. -/
def exConsumer : ConsumerState :=
  { state := CState.Subscribed, subscription := ["orders"],
    assignment := [{ topic := "orders", partition := 0 }],
    committed := [], group := "g1" }

/-- A concrete offset entry on a partition outside `exConsumer`'s
assignment, used by the witness instances. -/
def exForeignOffset : OffsetEntry :=
  { tp := { topic := "payments", partition := 3 }, offset := 5 }

/-- A concrete topic configuration, used by the witness instances. -/
def exTopicConfig : TopicConfig :=
  { name := "orders", numPartitions := 3, replicationFactor := 1,
    overrides := [] }

end TypedKafka

/-- C10: the package's version attribute `__version__` equals the string
"0.2.0". -/
theorem version_eq : TypedKafka.version = "0.2.0" := rfl

/-- C9: the declared public interface `__all__` contains exactly the twelve
names `KafkaProducer`, `KafkaConsumer`, `KafkaAdmin`, `ProducerConfig`,
`ConsumerConfig`, `TopicConfig`, `KafkaError`, `ProducerError`,
`ConsumerError`, `SerializationError`, `AdminError`, `testing` (twelve
entries, no duplicates, each of the twelve present), and every name listed
in `__all__` is bound in the module by one of the preceding imports. -/
theorem all_exports_complete :
    TypedKafka.allNames.length = 12 ∧
    TypedKafka.allNames.Nodup ∧
    "KafkaProducer" ∈ TypedKafka.allNames ∧
    "KafkaConsumer" ∈ TypedKafka.allNames ∧
    "KafkaAdmin" ∈ TypedKafka.allNames ∧
    "ProducerConfig" ∈ TypedKafka.allNames ∧
    "ConsumerConfig" ∈ TypedKafka.allNames ∧
    "TopicConfig" ∈ TypedKafka.allNames ∧
    "KafkaError" ∈ TypedKafka.allNames ∧
    "ProducerError" ∈ TypedKafka.allNames ∧
    "ConsumerError" ∈ TypedKafka.allNames ∧
    "SerializationError" ∈ TypedKafka.allNames ∧
    "AdminError" ∈ TypedKafka.allNames ∧
    "testing" ∈ TypedKafka.allNames ∧
    (TypedKafka.allNames.all fun n => TypedKafka.importedNames.contains n) = true := by
  decide

/-- C1 (counterexample): the claim that the six exception names
`ConfigError`, `SerializationError`, `BufferFullError`, `StateError`,
`CommitError`, `AdminError` are each exposed at the package's public
interface is false: `ConfigError`, `BufferFullError`, `StateError` and
`CommitError` do not appear in `__all__`. -/
theorem error_taxonomy_claim_false :
    ¬ ("ConfigError" ∈ TypedKafka.allNames ∧
       "SerializationError" ∈ TypedKafka.allNames ∧
       "BufferFullError" ∈ TypedKafka.allNames ∧
       "StateError" ∈ TypedKafka.allNames ∧
       "CommitError" ∈ TypedKafka.allNames ∧
       "AdminError" ∈ TypedKafka.allNames) := by
  decide

/-- C1 (amended): the exception names exposed at the package's public
interface are exactly the five names `KafkaError`, `ProducerError`,
`ConsumerError`, `SerializationError`, `AdminError`; the spec taxonomy's
`ConfigError`, `BufferFullError`, `StateError` and `CommitError` are not
exposed by `__all__`. -/
theorem exposed_error_names :
    ("KafkaError" ∈ TypedKafka.allNames ∧
     "ProducerError" ∈ TypedKafka.allNames ∧
     "ConsumerError" ∈ TypedKafka.allNames ∧
     "SerializationError" ∈ TypedKafka.allNames ∧
     "AdminError" ∈ TypedKafka.allNames) ∧
    ("ConfigError" ∉ TypedKafka.allNames ∧
     "BufferFullError" ∉ TypedKafka.allNames ∧
     "StateError" ∉ TypedKafka.allNames ∧
     "CommitError" ∉ TypedKafka.allNames) := by
  decide

namespace TypedKafka

/-- A delivery step removes the head of the buffer. -/
theorem deliverRun_buffer (outcome : Message → Option String) (s : ProducerState) :
    (deliverRun outcome s).buffer = s.buffer.tail := by
  cases hb : s.buffer with
  | nil => simp [deliverRun, deliverOne, hb]
  | cons m rest =>
    cases ho : outcome m <;> simp [deliverRun, deliverOne, hb, ho]

/-- `n` delivery steps drop `n` messages from the buffer. -/
theorem flushAux_buffer (outcome : Message → Option String) (n : Nat)
    (s : ProducerState) : (flushAux outcome n s).buffer = s.buffer.drop n := by
  induction n generalizing s with
  | zero => rfl
  | succ k ih =>
    rw [flushAux, ih, deliverRun_buffer, List.drop_tail]

/-- `flush` always drains the whole buffer: the count of undelivered
messages it returns is zero. -/
theorem flush_fst_zero (outcome : Message → Option String) (s : ProducerState) :
    (flush outcome s).fst = 0 := by
  unfold flush
  rw [flushAux_buffer, List.drop_length]
  rfl

/-- A delivery step preserves the session accounting: the number of
successful sends equals dispatched reports plus still-buffered messages. -/
theorem deliverRun_inv (outcome : Message → Option String) (s : ProducerState)
    (h : s.sent = s.reports.length + s.buffer.length) :
    (deliverRun outcome s).sent =
      (deliverRun outcome s).reports.length + (deliverRun outcome s).buffer.length := by
  cases hb : s.buffer with
  | nil => simpa [deliverRun, deliverOne, hb] using h
  | cons m rest =>
    rw [hb] at h
    simp only [List.length_cons] at h
    cases ho : outcome m <;>
      simp [deliverRun, deliverOne, hb, ho] <;> omega

/-- Delivery steps preserve the session accounting. -/
theorem flushAux_inv (outcome : Message → Option String) (n : Nat)
    (s : ProducerState) (h : s.sent = s.reports.length + s.buffer.length) :
    (flushAux outcome n s).sent =
      (flushAux outcome n s).reports.length + (flushAux outcome n s).buffer.length := by
  induction n generalizing s with
  | zero => exact h
  | succ k ih => exact ih _ (deliverRun_inv outcome s h)

/-- Every reachable producer session satisfies the accounting invariant:
successful sends = dispatched reports + still-buffered messages. -/
theorem reachable_inv {maxBuf : Nat} {outcome : Message → Option String}
    {s : ProducerState} (h : Reachable maxBuf outcome s) :
    s.sent = s.reports.length + s.buffer.length := by
  induction h with
  | init => rfl
  | sendOk hr hok ih =>
    unfold send at hok
    split at hok
    · exact absurd hok (by simp)
    · cases hok
      simp
      omega
  | deliver hr ih => exact deliverRun_inv _ _ ih
  | flushed hr ih => exact flushAux_inv _ _ _ ih

end TypedKafka

/-- C2: for every producer session state reachable by a sequence of `send`
calls (and background delivery steps and flushes), if `flush` returns 0
undelivered messages remaining, then the number of DeliveryReports
dispatched equals the number of successful `send` calls — every produced
Message yielded exactly one DeliveryReport. -/
theorem flush_zero_reports_eq_sends (maxBuf : Nat)
    (outcome : TypedKafka.Message → Option String) (s : TypedKafka.ProducerState)
    (hr : TypedKafka.Reachable maxBuf outcome s)
    (hz : (TypedKafka.flush outcome s).fst = 0) :
    ((TypedKafka.flush outcome s).snd).reports.length =
      ((TypedKafka.flush outcome s).snd).sent := by
  have hinv := TypedKafka.flushAux_inv outcome s.buffer.length s
    (TypedKafka.reachable_inv hr)
  have hb : ((TypedKafka.flush outcome s).snd).buffer.length = 0 := hz
  have hsnd : (TypedKafka.flush outcome s).snd =
      TypedKafka.flushAux outcome s.buffer.length s := rfl
  rw [hsnd] at hb ⊢
  omega

/-- C2 witness: a session that sent one message, flushed against an
all-accepting broker. -/
theorem flush_zero_reports_eq_sends_witness :
    TypedKafka.Reachable 4 TypedKafka.acceptAll TypedKafka.exSent ∧
    (TypedKafka.flush TypedKafka.acceptAll TypedKafka.exSent).fst = 0 ∧
    ((TypedKafka.flush TypedKafka.acceptAll TypedKafka.exSent).snd).reports.length =
      ((TypedKafka.flush TypedKafka.acceptAll TypedKafka.exSent).snd).sent :=
  ⟨TypedKafka.Reachable.sendOk TypedKafka.Reachable.init rfl, rfl,
   flush_zero_reports_eq_sends 4 TypedKafka.acceptAll TypedKafka.exSent
     (TypedKafka.Reachable.sendOk TypedKafka.Reachable.init rfl) rfl⟩

/-- C7: a broker-side rejection of an individual produced message never
raises: the delivery step returns `Except.ok` and reports the rejection
only through the appended DeliveryReport's `error` field. -/
theorem delivery_failure_never_raises (outcome : TypedKafka.Message → Option String)
    (s : TypedKafka.ProducerState) (m : TypedKafka.Message)
    (rest : List TypedKafka.Message) (e : String)
    (hb : s.buffer = m :: rest) (he : outcome m = some e) :
    TypedKafka.deliverOne outcome s =
      Except.ok
        { s with
            buffer := rest,
            reports := s.reports ++
              [TypedKafka.mkReport m s.log.length (some e)] } := by
  simp [TypedKafka.deliverOne, hb, he]

/-- C7 witness: a rejecting broker outcome on a concrete session. -/
theorem delivery_failure_never_raises_witness :
    TypedKafka.exProducer.buffer = TypedKafka.exMessage2 :: [] ∧
    TypedKafka.rejectAll TypedKafka.exMessage2 = some "rejected" ∧
    TypedKafka.deliverOne TypedKafka.rejectAll TypedKafka.exProducer =
      Except.ok
        { TypedKafka.exProducer with
            buffer := [],
            reports := TypedKafka.exProducer.reports ++
              [TypedKafka.mkReport TypedKafka.exMessage2
                TypedKafka.exProducer.log.length (some "rejected")] } :=
  ⟨rfl, rfl,
   delivery_failure_never_raises TypedKafka.rejectAll TypedKafka.exProducer
     TypedKafka.exMessage2 [] "rejected" rfl rfl⟩

namespace TypedKafka

/-- A delivery step only ever appends to the broker log. -/
theorem deliverRun_log (outcome : Message → Option String) (s : ProducerState) :
    ∃ t, (deliverRun outcome s).log = s.log ++ t := by
  cases hb : s.buffer with
  | nil => exact ⟨[], by simp [deliverRun, deliverOne, hb]⟩
  | cons m rest =>
    cases ho : outcome m with
    | none => exact ⟨[m], by simp [deliverRun, deliverOne, hb, ho]⟩
    | some e => exact ⟨[], by simp [deliverRun, deliverOne, hb, ho]⟩

/-- Iterated delivery steps only ever append to the broker log. -/
theorem flushAux_log (outcome : Message → Option String) (n : Nat)
    (s : ProducerState) : ∃ t, (flushAux outcome n s).log = s.log ++ t := by
  induction n generalizing s with
  | zero => exact ⟨[], by simp [flushAux]⟩
  | succ k ih =>
    obtain ⟨t1, ht1⟩ := deliverRun_log outcome s
    obtain ⟨t2, ht2⟩ := ih (deliverRun outcome s)
    exact ⟨t1 ++ t2, by rw [flushAux, ht2, ht1, List.append_assoc]⟩

/-- Any single producer command only ever appends to the broker log. -/
theorem runPOp_log (maxBuf : Nat) (outcome : Message → Option String)
    (s : ProducerState) (op : ProducerOp) :
    ∃ t, (runPOp maxBuf outcome s op).log = s.log ++ t := by
  cases op with
  | sendMsg m =>
    refine ⟨[], ?_⟩
    simp only [runPOp]
    cases hs : send maxBuf s m with
    | ok s' =>
      unfold send at hs
      split at hs
      · simp at hs
      · cases hs
        simp
    | error e => simp
  | deliverStep => exact deliverRun_log outcome s
  | flushStep => exact flushAux_log outcome s.buffer.length s

/-- Any sequence of producer commands only ever appends to the broker
log. -/
theorem runPOps_log (maxBuf : Nat) (outcome : Message → Option String)
    (s : ProducerState) (ops : List ProducerOp) :
    ∃ t, (runPOps maxBuf outcome s ops).log = s.log ++ t := by
  induction ops generalizing s with
  | nil => exact ⟨[], by simp [runPOps]⟩
  | cons op rest ih =>
    obtain ⟨t1, ht1⟩ := runPOp_log maxBuf outcome s op
    obtain ⟨t2, ht2⟩ := ih (runPOp maxBuf outcome s op)
    exact ⟨t1 ++ t2, by
      show (runPOps maxBuf outcome (runPOp maxBuf outcome s op) rest).log = _
      rw [ht2, ht1, List.append_assoc]⟩

end TypedKafka

/-- C8: a Message is immutable once constructed — once a message sits at
position `i` of the broker log, no sequence of producer commands (sends,
background delivery steps, flushes) ever changes any of its fields: the
same message, all fields byte-for-byte equal, is still at position `i`
afterwards. -/
theorem message_immutable_in_log (maxBuf : Nat)
    (outcome : TypedKafka.Message → Option String) (s : TypedKafka.ProducerState)
    (ops : List TypedKafka.ProducerOp) (i : Nat) (m : TypedKafka.Message)
    (h : s.log[i]? = some m) :
    (TypedKafka.runPOps maxBuf outcome s ops).log[i]? = some m := by
  obtain ⟨t, ht⟩ := TypedKafka.runPOps_log maxBuf outcome s ops
  obtain ⟨hi, -⟩ := List.getElem?_eq_some.mp h
  rw [ht, List.getElem?_append_left hi]
  exact h

/-- C8 witness: a concrete logged message survives a send, a delivery step
and a flush unchanged. -/
theorem message_immutable_in_log_witness :
    TypedKafka.exProducer.log[0]? = some TypedKafka.exMessage ∧
    (TypedKafka.runPOps 4 TypedKafka.acceptAll TypedKafka.exProducer
      [TypedKafka.ProducerOp.sendMsg TypedKafka.exMessage2,
       TypedKafka.ProducerOp.deliverStep,
       TypedKafka.ProducerOp.flushStep]).log[0]? = some TypedKafka.exMessage :=
  ⟨rfl,
   message_immutable_in_log 4 TypedKafka.acceptAll TypedKafka.exProducer
     [TypedKafka.ProducerOp.sendMsg TypedKafka.exMessage2,
      TypedKafka.ProducerOp.deliverStep,
      TypedKafka.ProducerOp.flushStep] 0 TypedKafka.exMessage rfl⟩

namespace TypedKafka

/-- Once closed, a consumer stays closed under any single command. -/
theorem runCOp_closed (c : ConsumerState) (op : ConsumerOp)
    (h : c.state = CState.Closed) : (runCOp c op).state = CState.Closed := by
  cases op with
  | subscribeTo ts => simp [runCOp, subscribe, h]
  | pollFrom log => simp [runCOp, poll, h]
  | commitOffsets offs =>
    simp only [runCOp]
    cases hc : commit c offs with
    | ok c' =>
      unfold commit at hc
      split at hc
      · cases hc
        exact h
      · simp at hc
    | error e => exact h
  | rebalanceTo tps => simp [runCOp, rebalance, h]
  | closeNow => rfl

/-- Once closed, a consumer stays closed under any command sequence. -/
theorem runCOps_closed (c : ConsumerState) (ops : List ConsumerOp)
    (h : c.state = CState.Closed) : (runCOps c ops).state = CState.Closed := by
  induction ops generalizing c with
  | nil => exact h
  | cons op rest ih => exact ih _ (runCOp_closed c op h)

/-- Polling a closed consumer reports `StateError`. -/
theorem poll_closed (c : ConsumerState) (log : List Message)
    (h : c.state = CState.Closed) :
    poll c log = Except.error KafkaException.StateError := by
  simp [poll, h]

/-- Polling a subscribed consumer returns the subscribed records from the
loopback log. -/
theorem poll_subscribed (c : ConsumerState) (log : List Message)
    (h : c.state = CState.Subscribed) :
    poll c log = Except.ok (recordsFrom c.group c.subscription 0 log,
                            { c with state := CState.Polling }) := by
  simp [poll, h]

end TypedKafka

/-- C3: for every consumer, polling at any time after `close()` — after any
further sequence of subscribe, poll, commit, coordinator-rebalance or close
commands — fails with `StateError`. -/
theorem poll_after_close_state_error (c : TypedKafka.ConsumerState)
    (ops : List TypedKafka.ConsumerOp) (log : List TypedKafka.Message) :
    TypedKafka.poll (TypedKafka.runCOps (TypedKafka.close c) ops) log =
      Except.error TypedKafka.KafkaException.StateError :=
  TypedKafka.poll_closed _ log (TypedKafka.runCOps_closed _ ops rfl)

/-- C4: for every consumer and every offset on a partition outside the
consumer's current assignment, committing a batch containing that offset
fails with `CommitError`. -/
theorem commit_unowned_commit_error (c : TypedKafka.ConsumerState)
    (offs : List TypedKafka.OffsetEntry) (o : TypedKafka.OffsetEntry)
    (ho : o ∈ offs) (hn : o.tp ∉ c.assignment) :
    TypedKafka.commit c offs =
      Except.error TypedKafka.KafkaException.CommitError := by
  unfold TypedKafka.commit
  exact dif_neg fun hall => hn (hall o ho)

/-- C4 witness: committing an offset on an unassigned partition on a
concrete consumer. -/
theorem commit_unowned_commit_error_witness :
    TypedKafka.exForeignOffset ∈ [TypedKafka.exForeignOffset] ∧
    TypedKafka.exForeignOffset.tp ∉ TypedKafka.exConsumer.assignment ∧
    TypedKafka.commit TypedKafka.exConsumer [TypedKafka.exForeignOffset] =
      Except.error TypedKafka.KafkaException.CommitError :=
  ⟨List.mem_singleton.mpr rfl, by decide,
   commit_unowned_commit_error TypedKafka.exConsumer [TypedKafka.exForeignOffset]
     TypedKafka.exForeignOffset (List.mem_singleton.mpr rfl) (by decide)⟩

/-- C5: `create_topic` is not idempotent — creating a topic whose name
already exists in the cluster (for example, the second of two calls with
the same name) fails with `AdminError` of kind `AlreadyExists`. -/
theorem create_topic_existing_admin_error (cluster : List String)
    (cfg : TypedKafka.TopicConfig) (h : cfg.name ∈ cluster) :
    TypedKafka.create_topic cluster cfg =
      Except.error (TypedKafka.KafkaException.AdminError
        TypedKafka.AdminErrorKind.AlreadyExists) := by
  simp [TypedKafka.create_topic, h]

/-- C5 witness: the two-call scenario — the first `create_topic` of
"orders" succeeds, the second fails with `AdminError(AlreadyExists)`. -/
theorem create_topic_existing_admin_error_witness :
    TypedKafka.create_topic [] TypedKafka.exTopicConfig = Except.ok ["orders"] ∧
    TypedKafka.exTopicConfig.name ∈ ["orders"] ∧
    TypedKafka.create_topic ["orders"] TypedKafka.exTopicConfig =
      Except.error (TypedKafka.KafkaException.AdminError
        TypedKafka.AdminErrorKind.AlreadyExists) :=
  ⟨rfl, List.mem_singleton.mpr rfl,
   create_topic_existing_admin_error ["orders"] TypedKafka.exTopicConfig
     (List.mem_singleton.mpr rfl)⟩

namespace TypedKafka

/-- Against an all-accepting broker, `n` delivery steps append the first
`n` buffered messages to the broker log, in order. -/
theorem flushAux_acceptAll_log (n : Nat) (s : ProducerState) :
    (flushAux acceptAll n s).log = s.log ++ s.buffer.take n := by
  induction n generalizing s with
  | zero => simp [flushAux]
  | succ k ih =>
    rw [flushAux, ih]
    cases hb : s.buffer with
    | nil => simp [deliverRun, deliverOne, hb]
    | cons m rest =>
      simp [deliverRun, deliverOne, hb, acceptAll, List.append_assoc]

/-- Against an all-accepting broker, `flush` appends the whole buffer to
the broker log. -/
theorem flush_acceptAll_log (s : ProducerState) :
    ((flush acceptAll s).snd).log = s.log ++ s.buffer := by
  show (flushAux acceptAll s.buffer.length s).log = _
  rw [flushAux_acceptAll_log, List.take_length]

/-- `recordsFrom` distributes over an appended log segment, offsetting the
second segment by the first one's length. -/
theorem recordsFrom_append (g : String) (subs : List String) (off : Nat)
    (l1 l2 : List Message) :
    recordsFrom g subs off (l1 ++ l2) =
      recordsFrom g subs off l1 ++ recordsFrom g subs (off + l1.length) l2 := by
  induction l1 generalizing off with
  | nil => simp [recordsFrom]
  | cons m rest ih =>
    by_cases hm : m.topic ∈ subs
    · simp only [List.cons_append, recordsFrom, if_pos hm, List.append_eq,
        ih (off + 1), List.length_cons]
      rw [show off + 1 + rest.length = off + (rest.length + 1) from by omega]
    · simp only [List.cons_append, recordsFrom, if_neg hm, List.append_eq,
        ih (off + 1), List.length_cons]
      rw [show off + 1 + rest.length = off + (rest.length + 1) from by omega]

end TypedKafka

/-- C6: round-trip preservation — a Message sent and flushed through the
loopback broker and then received via poll by a subscribed consumer comes
back as the last ConsumerRecord with key, value and headers byte-for-byte
equal to the sent Message's. -/
theorem round_trip_preserves_bytes (maxBuf : Nat) (s : TypedKafka.ProducerState)
    (c : TypedKafka.ConsumerState) (m : TypedKafka.Message)
    (hroom : s.buffer.length < maxBuf)
    (hstate : c.state = TypedKafka.CState.Subscribed)
    (hsub : m.topic ∈ c.subscription) :
    ∃ s1 recs c' r,
      TypedKafka.send maxBuf s m = Except.ok s1 ∧
      (TypedKafka.flush TypedKafka.acceptAll s1).fst = 0 ∧
      TypedKafka.poll c ((TypedKafka.flush TypedKafka.acceptAll s1).snd).log =
        Except.ok (recs, c') ∧
      recs.getLast? = some r ∧
      r.key = m.key ∧ r.value = m.value ∧ r.headers = m.headers := by
  refine ⟨{ s with buffer := s.buffer ++ [m], sent := s.sent + 1 },
          TypedKafka.recordsFrom c.group c.subscription 0
            (s.log ++ (s.buffer ++ [m])),
          { c with state := TypedKafka.CState.Polling },
          TypedKafka.toRecord c.group ((s.log ++ s.buffer).length) m,
          ?_, ?_, ?_, ?_, rfl, rfl, rfl⟩
  · unfold TypedKafka.send
    rw [if_neg (by omega)]
  · exact TypedKafka.flush_fst_zero _ _
  · rw [TypedKafka.flush_acceptAll_log]
    exact TypedKafka.poll_subscribed _ _ hstate
  · rw [← List.append_assoc, TypedKafka.recordsFrom_append]
    have hone : TypedKafka.recordsFrom c.group c.subscription
        (0 + (s.log ++ s.buffer).length) [m] =
        [TypedKafka.toRecord c.group ((s.log ++ s.buffer).length) m] := by
      simp [TypedKafka.recordsFrom, hsub]
    rw [hone, List.getLast?_concat]

/-- C6 witness: round-tripping a concrete message through the loopback
broker to a concrete subscribed consumer. -/
theorem round_trip_preserves_bytes_witness :
    TypedKafka.initProducer.buffer.length < 1 ∧
    TypedKafka.exConsumer.state = TypedKafka.CState.Subscribed ∧
    TypedKafka.exMessage.topic ∈ TypedKafka.exConsumer.subscription ∧
    (∃ s1 recs c' r,
      TypedKafka.send 1 TypedKafka.initProducer TypedKafka.exMessage =
        Except.ok s1 ∧
      (TypedKafka.flush TypedKafka.acceptAll s1).fst = 0 ∧
      TypedKafka.poll TypedKafka.exConsumer
        ((TypedKafka.flush TypedKafka.acceptAll s1).snd).log =
        Except.ok (recs, c') ∧
      recs.getLast? = some r ∧
      r.key = TypedKafka.exMessage.key ∧
      r.value = TypedKafka.exMessage.value ∧
      r.headers = TypedKafka.exMessage.headers) :=
  ⟨by decide, rfl, by decide,
   round_trip_preserves_bytes 1 TypedKafka.initProducer TypedKafka.exConsumer
     TypedKafka.exMessage (by decide) rfl (by decide)⟩
